import Mathlib

/-!
A shallow embedding of the fors-api authorization core: the credential store
tables, the JWT session codec, the authentication gate and permission
resolver from middleware/authMiddleware.js, the farmer routes from
routes/farmerRoutes.js, the OTP login flow from routes/authRoutes.js, and
the role update route from routes/roleRoutes.js.  Supabase queries are
modelled as pure lookups over an explicit store state; `.single()` returning
an error when no row matches is modelled by `Option`.
-/

namespace Fors

/-- A row of the `roles` table. -/
structure Role where
  id : Nat
  roleName : String
deriving Repr, DecidableEq

/-- A row of the `permissions` table. -/
structure Permission where
  id : Nat
  permissionName : String
  permissionCode : String
deriving Repr, DecidableEq

/-- A row of the `role_permissions` join table. -/
structure RolePermission where
  roleId : Nat
  permissionId : Nat
deriving Repr, DecidableEq

/-- A row of the `users` table (the fields the authorization core reads).
`roleId` is an optional foreign key; `otp` is the single pending-OTP slot. -/
structure User where
  id : Nat
  email : String
  passwordHash : String
  roleId : Option Nat
  isActive : Bool
  activationStatus : Bool
  otp : Option String
deriving Repr, DecidableEq

/-- A row of the `project_users` assignment table. -/
structure ProjectUser where
  projectId : Nat
  userId : Nat
deriving Repr, DecidableEq

/-- A row of the `farmers` table (the fields the claims need). -/
structure Farmer where
  id : Nat
  fullName : String
  farmerTypeId : Nat
  projectId : Nat
  addedByUserId : Nat
deriving Repr, DecidableEq

/-- The relational state reachable through the supabase client. -/
structure Store where
  users : List User
  roles : List Role
  permissions : List Permission
  rolePermissions : List RolePermission
  projectUsers : List ProjectUser
  farmers : List Farmer
deriving Repr, DecidableEq

/-- `.from('users').eq('id', uid).single()`: `none` models the error row. -/
def findUser (s : Store) (uid : Nat) : Option User :=
  s.users.find? (fun u => u.id == uid)

/-- `.from('users').eq('email', email).single()`. -/
def findUserByEmail (s : Store) (email : String) : Option User :=
  s.users.find? (fun u => u.email == email)

/-- `.from('roles').eq('id', rid).single()`. -/
def findRole (s : Store) (rid : Nat) : Option Role :=
  s.roles.find? (fun r => r.id == rid)

/-- `.from('permissions').eq('id', pid).single()`. -/
def findPermissionById (s : Store) (pid : Nat) : Option Permission :=
  s.permissions.find? (fun p => p.id == pid)

/-- The permission codes reachable from a role through the nested
`role_permissions(permission:permissions(permission_code))` select used by
`authorizePermission`.  A link row whose permission row is missing surfaces
as a null `rp.permission` and is skipped by the `rp.permission &&` guard in
the source, which `filterMap` reproduces. -/
def rolePermissionCodes (s : Store) (rid : Nat) : List String :=
  (s.rolePermissions.filter (fun rp => rp.roleId == rid)).filterMap
    (fun rp => (findPermissionById s rp.permissionId).map (fun p => p.permissionCode))

/-- Outcome of the permission resolver: `granted` models the middleware
calling `next()`, `denied st msg` models `res.status(st).json({message: msg})`. -/
inductive AuthzResult where
  | granted
  | denied (status : Nat) (message : String)
deriving Repr, DecidableEq

/-- `authorizePermission(permissionCode)` from middleware/authMiddleware.js:
look the user up by the token subject id, join to the role and its linked
permission codes, grant iff the required code appears in that set.  A failed
user lookup or a missing role yields the 403 "not found" message; a present
role whose code set lacks the code yields the 403 "Requires permission"
message. -/
def authorizePermission (s : Store) (permissionCode : String) (uid : Nat) : AuthzResult :=
  match findUser s uid with
  | none => .denied 403 "User permissions not found or access denied."
  | some u =>
    match u.roleId.bind (findRole s) with
    | none => .denied 403 "User permissions not found or access denied."
    | some role =>
      if (rolePermissionCodes s role.id).contains permissionCode then
        AuthzResult.granted
      else
        AuthzResult.denied 403 ("Access denied. Requires permission: " ++ permissionCode)

/-- The JWT payload signed by verify-otp: `{userId, email, roleName}`. -/
structure Claims where
  userId : Nat
  email : String
  roleName : String
deriving Repr, DecidableEq

/-- `expiresIn: '1h'` in jwt.sign, in seconds. -/
def tokenTtlSeconds : Nat := 3600

/-- A structurally well-formed JWT: its payload, its issue time (`iat`), and
the secret its signature was produced with.  The signature is valid against
`secret` exactly when `signedWith = secret`. -/
structure Token where
  claims : Claims
  iat : Nat
  signedWith : String
deriving Repr, DecidableEq

/-- The raw bearer string taken from the Authorization header: either not a
decodable JWT at all, or a structurally well-formed one. -/
inductive RawToken where
  | malformed
  | wellFormed (t : Token)
deriving Repr, DecidableEq

/-- `jwt.verify(token, secret)`: yields the payload when the token decodes,
the signature matches the secret, and the current time is before
`iat + ttl`; otherwise the callback receives an error (modelled `none`).
jsonwebtoken rejects once `now ≥ exp` with `exp = iat + ttl`. -/
def jwtVerify (secret : String) (now : Nat) (raw : RawToken) : Option Claims :=
  match raw with
  | .malformed => none
  | .wellFormed t =>
      if t.signedWith == secret && now < t.iat + tokenTtlSeconds then some t.claims else none

/-- `authenticateToken` from middleware/authMiddleware.js.  `Except.error
(st, msg)` models `res.status(st).json({message: msg})` with `next()` never
called; `Except.ok claims` models attaching `req.user = claims` and calling
`next()`.  Missing header → 401; failed `jwt.verify` → 403; user row
missing, `is_active` false, or `activation_status === false` → 403. -/
def authenticateToken (secret : String) (now : Nat) (s : Store) (tok : Option RawToken) :
    Except (Nat × String) Claims :=
  match tok with
  | none => .error (401, "Authentication token required.")
  | some raw =>
    match jwtVerify secret now raw with
    | none => .error (403, "Invalid or expired token.")
    | some claims =>
      match findUser s claims.userId with
      | none => .error (403, "User is inactive or not found.")
      | some u =>
        if !u.isActive || u.activationStatus == false then
          .error (403, "User is inactive or not found.")
        else
          .ok claims

/-- Outcome of a full route: the gate halted the request with a response, or
the route handler ran and produced a result. -/
inductive RouteOutcome (α : Type) where
  | halted (status : Nat) (message : String)
  | handled (result : α)
deriving Repr, DecidableEq

/-- The project ids assigned to a user in `project_users`
(`.select('project_id').eq('user_id', uid)`). -/
def assignedProjectIds (s : Store) (uid : Nat) : List Nat :=
  (s.projectUsers.filter (fun pu => pu.userId == uid)).map (fun pu => pu.projectId)

/-- `.from('project_users').eq('project_id', pid).eq('user_id', uid).single()`
succeeding, i.e. an assignment row exists. -/
def isAssignedTo (s : Store) (uid pid : Nat) : Bool :=
  s.projectUsers.any (fun pu => pu.projectId == pid && pu.userId == uid)

/-- The GET /api/farmers handler body from routes/farmerRoutes.js, run after
`authenticateToken` with `claims = req.user`.  Non-`'Admin'` role name
(taken from the token payload): fetch the caller's assigned project ids,
return 200 `[]` when there are none, else add `.in('project_id', ids)` to
the farmers query; `'Admin'`: no filter. -/
def getFarmers (s : Store) (claims : Claims) : Nat × List Farmer :=
  if claims.roleName != "Admin" then
    let projectIds := assignedProjectIds s claims.userId
    if projectIds.isEmpty then (200, [])
    else (200, s.farmers.filter (fun f => projectIds.contains f.projectId))
  else (200, s.farmers)

/-- GET /api/farmers composed with the authentication gate. -/
def getFarmersRoute (secret : String) (now : Nat) (s : Store) (tok : Option RawToken) :
    RouteOutcome (Nat × List Farmer) :=
  match authenticateToken secret now s tok with
  | .error e => .halted e.1 e.2
  | .ok claims => .handled (getFarmers s claims)

/-- JavaScript truthiness of an optional string field (`undefined` and `""`
are falsy). -/
def truthyStr : Option String → Bool
  | none => false
  | some s => s != ""

/-- JavaScript truthiness of an optional numeric field (`undefined` and `0`
are falsy). -/
def truthyNat : Option Nat → Bool
  | none => false
  | some n => n != 0

/-- `a || b` on an optional numeric field: the provided value when truthy,
else the default. -/
def jsOrNat (v : Option Nat) (dflt : Nat) : Nat :=
  match v with
  | none => dflt
  | some n => if n == 0 then dflt else n

/-- The request body of POST/PUT /api/farmers (the fields the claims need). -/
structure FarmerBody where
  fullName : Option String
  farmerTypeId : Option Nat
  projectId : Option Nat
deriving Repr, DecidableEq

/-- The farmer routes invoke the permission middleware as
`await authorizePermission(code)(req, res, () => \x7b\x7d)`.  On denial the
middleware writes a 403 response and returns normally — it does not throw —
so the handler keeps running.  This gives the list of response sends the
middleware performs; express delivers only the first send of a request. -/
def permMiddlewareSends (s : Store) (code : String) (uid : Nat) : List (Nat × String) :=
  match authorizePermission s code uid with
  | .granted => []
  | .denied st msg => [(st, msg)]

/-- `.from('farmers').insert(...)`. -/
def insertFarmer (s : Store) (f : Farmer) : Store :=
  { s with farmers := s.farmers ++ [f] }

/-- `.from('farmers').eq('id', fid).single()`. -/
def findFarmer (s : Store) (fid : Nat) : Option Farmer :=
  s.farmers.find? (fun f => f.id == fid)

/-- POST /api/farmers from routes/farmerRoutes.js.  Returns the resulting
store and the ordered list of response sends the handler attempts (the first
element is the response the client receives).  Validation 400; for a
non-`'Admin'` token role the target project assignment is checked (403 with
an early return); then the permission middleware is awaited — ADD for
non-admin, CREATE for admin — and, exactly as in the source, the insert and
the 201 send run whether or not the middleware already sent a 403. -/
def createFarmer (s : Store) (claims : Claims) (body : FarmerBody) (newId : Nat) :
    Store × List (Nat × String) :=
  if !truthyStr body.fullName || !truthyNat body.farmerTypeId || !truthyNat body.projectId then
    (s, [(400, "Full name, farmer type, and project are required.")])
  else
    let pid := body.projectId.getD 0
    let newRow : Farmer :=
      ⟨newId, body.fullName.getD "", body.farmerTypeId.getD 0, pid, claims.userId⟩
    if claims.roleName != "Admin" then
      if !isAssignedTo s claims.userId pid then
        (s, [(403, "You can only add farmers to projects you are assigned to.")])
      else
        let sends := permMiddlewareSends s "ADD_FARMER_RECORDS" claims.userId
        (insertFarmer s newRow, sends ++ [(201, "Farmer record created successfully.")])
    else
      let sends := permMiddlewareSends s "CREATE_FARMER_RECORDS" claims.userId
      (insertFarmer s newRow, sends ++ [(201, "Farmer record created successfully.")])

/-- The `.update(updateData)` of PUT /api/farmers/:id: provided fields
overwrite, absent fields keep the row's value, and `project_id` is always
set to the computed target. -/
def updateFarmerRow (s : Store) (fid : Nat) (body : FarmerBody) (target : Nat) : Store :=
  { s with farmers := s.farmers.map (fun f =>
      if f.id == fid then
        { f with
          fullName := body.fullName.getD f.fullName
          farmerTypeId := body.farmerTypeId.getD f.farmerTypeId
          projectId := target }
      else f) }

/-- PUT /api/farmers/:id from routes/farmerRoutes.js.  Looks the farmer up
(404 when absent), computes `targetProjectId = projectId || currentProjectId`,
and for a non-`'Admin'` token role checks the caller's assignment to the
*target* project (403 with an early return).  The permission middleware for
EDIT_FARMER_RECORDS is then awaited and — as in the source — the row update
and the 200 send run regardless of a denial send.  The source's
"No fields to update" 400 branch is unreachable because `project_id` is
always present in `updateData`. -/
def updateFarmer (s : Store) (claims : Claims) (fid : Nat) (body : FarmerBody) :
    Store × List (Nat × String) :=
  match findFarmer s fid with
  | none => (s, [(404, "Farmer not found.")])
  | some existing =>
    let target := jsOrNat body.projectId existing.projectId
    if claims.roleName != "Admin" then
      if !isAssignedTo s claims.userId target then
        (s, [(403, "You can only edit farmers in projects you are assigned to.")])
      else
        let sends := permMiddlewareSends s "EDIT_FARMER_RECORDS" claims.userId
        (updateFarmerRow s fid body target,
          sends ++ [(200, "Farmer record updated successfully.")])
    else
      let sends := permMiddlewareSends s "EDIT_FARMER_RECORDS" claims.userId
      (updateFarmerRow s fid body target,
        sends ++ [(200, "Farmer record updated successfully.")])

/-- DELETE /api/farmers/:id from routes/farmerRoutes.js.  Looks the farmer
up (404 when absent); non-`'Admin'` token role: check assignment to the
record's project (403 with an early return); then the DELETE_FARMER_RECORDS
middleware is awaited and — as in the source — the delete and the 200 send
run regardless of a denial send. -/
def deleteFarmer (s : Store) (claims : Claims) (fid : Nat) :
    Store × List (Nat × String) :=
  match findFarmer s fid with
  | none => (s, [(404, "Farmer not found.")])
  | some existing =>
    if claims.roleName != "Admin" then
      if !isAssignedTo s claims.userId existing.projectId then
        (s, [(403, "You can only delete farmers from projects you are assigned to.")])
      else
        let sends := permMiddlewareSends s "DELETE_FARMER_RECORDS" claims.userId
        ({ s with farmers := s.farmers.filter (fun f => f.id != fid) },
          sends ++ [(200, "Farmer record deleted successfully.")])
    else
      let sends := permMiddlewareSends s "DELETE_FARMER_RECORDS" claims.userId
      ({ s with farmers := s.farmers.filter (fun f => f.id != fid) },
        sends ++ [(200, "Farmer record deleted successfully.")])

/-- `.from('users').update({otp: v}).eq('id', uid)` on the users table. -/
def setUserOtp (users : List User) (uid : Nat) (v : Option String) : List User :=
  users.map (fun u => if u.id == uid then { u with otp := v } else u)

/-- The OTP issuance step of POST /api/auth/login: persist the freshly
generated 6-digit code in the user's `otp` slot, overwriting any prior
pending code. -/
def issueOtp (s : Store) (uid : Nat) (code : String) : Store :=
  { s with users := setUserOtp s.users uid (some code) }

/-- Outcome of POST /api/auth/login. -/
inductive LoginResult where
  | badRequest (message : String)
  | forbidden (message : String)
  | otpSent
deriving Repr, DecidableEq

/-- POST /api/auth/login from routes/authRoutes.js.  The freshly generated
OTP (`Math.floor(100000 + Math.random() * 900000)`) and the bcrypt
comparison are external inputs, passed as parameters.  Field validation
400; unknown email or wrong password 400; inactive account 403; otherwise
the OTP is stored and mailed (mail delivery is fire-and-forget and does not
affect the outcome). -/
def loginIssueOtp (s : Store) (email password freshOtp : String)
    (passwordMatches : String → String → Bool) : Store × LoginResult :=
  if email == "" || password == "" then
    (s, .badRequest "Please enter all fields.")
  else
    match findUserByEmail s email with
    | none => (s, .badRequest "Invalid credentials.")
    | some u =>
      if !passwordMatches password u.passwordHash then
        (s, .badRequest "Invalid credentials.")
      else if !u.activationStatus || !u.isActive then
        (s, .forbidden "Your account is inactive. Please contact an administrator.")
      else
        (issueOtp s u.id freshOtp, .otpSent)

/-- Outcome of POST /api/auth/verify-otp. -/
inductive OtpVerifyResult where
  | badRequest (message : String)
  | serverError
  | verified (claims : Claims)
deriving Repr, DecidableEq

/-- POST /api/auth/verify-otp from routes/authRoutes.js.  Field validation
400; unknown email 400; `user.otp !== otp` 400 "Invalid OTP."; on a match
the pending code is cleared (`update({otp: null})`) and then the JWT payload
is built from `user.role.role_name` — a user row without a role makes that
property access throw (500), after the clear. -/
def verifyOtpRoute (s : Store) (email otp : String) : Store × OtpVerifyResult :=
  if email == "" || otp == "" then
    (s, .badRequest "Email and OTP are required.")
  else
    match findUserByEmail s email with
    | none => (s, .badRequest "Invalid email or OTP.")
    | some u =>
      if u.otp != some otp then
        (s, .badRequest "Invalid OTP.")
      else
        let s2 := { s with users := setUserOtp s.users u.id none }
        match u.roleId.bind (findRole s) with
        | none => (s2, .serverError)
        | some role => (s2, .verified ⟨u.id, u.email, role.roleName⟩)

/-- The request body of PUT /api/roles/:id: `permissionIds` defaults to `[]`
when omitted. -/
structure RoleBody where
  roleName : Option String
  permissionIds : List Nat
deriving Repr, DecidableEq

/-- The permission ids currently linked to a role. -/
def roleLinks (s : Store) (rid : Nat) : List Nat :=
  (s.rolePermissions.filter (fun rp => rp.roleId == rid)).map (fun rp => rp.permissionId)

/-- PUT /api/roles/:id from routes/roleRoutes.js (run after the gate and the
EDIT_ROLES permission middleware).  Missing role name 400; a different role
already carrying the name 400; role id not found 404 (the `.update`
returning no row).  Otherwise the role is renamed, every existing
`role_permissions` row of the role is deleted, and one link row per supplied
permission id is inserted. -/
def updateRole (s : Store) (rid : Nat) (body : RoleBody) : Store × (Nat × String) :=
  if !truthyStr body.roleName then
    (s, (400, "Role name is required."))
  else
    let rn := body.roleName.getD ""
    if s.roles.any (fun r => r.roleName == rn && r.id != rid) then
      (s, (400, "Another role with this name already exists."))
    else
      match findRole s rid with
      | none => (s, (404, "Role not found."))
      | some _ =>
        let renamed :=
          s.roles.map (fun r => if r.id == rid then { r with roleName := rn } else r)
        let keptLinks := s.rolePermissions.filter (fun rp => rp.roleId != rid)
        let newLinks := body.permissionIds.map (fun pid => RolePermission.mk rid pid)
        ({ s with roles := renamed, rolePermissions := keptLinks ++ newLinks },
          (200, "Role updated successfully."))

/-- The permission middleware reads only `req.user.userId` from the token
payload attached by the gate; this wrapper makes that projection explicit. -/
def authorizePermissionMw (s : Store) (claims : Claims) (code : String) : AuthzResult :=
  authorizePermission s code claims.userId

/- Concrete fixtures used by counterexamples and witnesses. -/

/-- Permission row with code VIEW_FARMERS. -/
def permViewFarmers : Permission := ⟨1, "View Farmers", "VIEW_FARMERS"⟩

/-- Permission row with code ADD_FARMER_RECORDS. -/
def permAddFarmers : Permission := ⟨2, "Add Farmer Records", "ADD_FARMER_RECORDS"⟩

/-- A role carrying the spec's distinguished name. -/
def adminRole : Role := ⟨1, "Administrator"⟩

/-- A plain role. -/
def userRoleRow : Role := ⟨2, "User"⟩

/-- An active user holding the Administrator role. -/
def adminUser : User := ⟨1, "admin@fors.example", "hash1", some 1, true, true, none⟩

/-- An inactive user (isActive = false) holding the User role. -/
def inactiveUser : User := ⟨2, "inactive@fors.example", "hash2", some 2, false, true, none⟩

/-- An active user holding the User role, assigned to project 1 in the
scoped stores below. -/
def fieldUser : User := ⟨3, "field@fors.example", "hash3", some 2, true, true, none⟩

/-- Store in which the Administrator role has no role_permissions rows. -/
def storeAdminNoLinks : Store :=
  ⟨[adminUser], [adminRole], [permViewFarmers], [], [], []⟩

/-- Store in which the Administrator role is linked to VIEW_FARMERS. -/
def storeAdminLinked : Store :=
  ⟨[adminUser], [adminRole], [permViewFarmers], [⟨1, 1⟩], [], []⟩

/-- Store with the inactive user. -/
def storeInactive : Store :=
  ⟨[inactiveUser], [userRoleRow], [], [], [], []⟩

/-- Store in which user 3 (role User, no permission links) is assigned to
project 1. -/
def storeDeniedAdd : Store :=
  ⟨[fieldUser], [userRoleRow], [permAddFarmers], [], [⟨1, 3⟩], []⟩

/-- A farmer row in project 1. -/
def farmerP1 : Farmer := ⟨1, "Farmer One", 1, 1, 1⟩

/-- A farmer row in project 2. -/
def farmerP2 : Farmer := ⟨2, "Farmer Two", 1, 2, 1⟩

/-- Store with user 3 assigned to project 1 only, and farmers in projects 1
and 2. -/
def storeScoped : Store :=
  ⟨[fieldUser], [userRoleRow], [], [], [⟨1, 3⟩], [farmerP1, farmerP2]⟩

/-- Token payload for user 3 carrying its stored role name. -/
def fieldClaims : Claims := ⟨3, "field@fors.example", "User"⟩

/-- Token payload for user 3 carrying the role name Admin instead. -/
def adminClaims3 : Claims := ⟨3, "field@fors.example", "Admin"⟩

/-- Payload used in the token fixtures. -/
def someClaims : Claims := ⟨1, "admin@fors.example", "Admin"⟩

/-- A token signed with the wrong secret. -/
def tokenBadSig : Token := ⟨someClaims, 0, "wrong-secret"⟩

/-- A token correctly signed with "secret" at time 0. -/
def tokenGood : Token := ⟨someClaims, 0, "secret"⟩

/-- A correctly signed token whose subject is the inactive user 2. -/
def tokenInactive : Token := ⟨⟨2, "inactive@fors.example", "User"⟩, 0, "secret"⟩

/-- POST /api/farmers body targeting project 1. -/
def newFarmerBody : FarmerBody := ⟨some "New Farmer", some 1, some 1⟩

/-- PUT /api/farmers/:id body requesting reassignment to project 2. -/
def reassignBody : FarmerBody := ⟨none, none, some 2⟩

/-- A user holding the Editor role (id 5) used by the role-update fixtures. -/
def editorUser : User := ⟨6, "editor@fors.example", "hash6", some 5, true, true, none⟩

/-- The Editor role. -/
def editorRole : Role := ⟨5, "Editor"⟩

/-- Store in which the Editor role is linked to two permissions. -/
def storeEditor : Store :=
  ⟨[editorUser], [editorRole], [permViewFarmers, permAddFarmers], [⟨5, 1⟩, ⟨5, 2⟩], [], []⟩

/-- PUT /api/roles/:id body keeping the name and supplying no permission
ids. -/
def roleBodyEmpty : RoleBody := ⟨some "Editor", []⟩

/-- A user with a pending OTP code "123456". -/
def otpUser : User := ⟨4, "otp@fors.example", "hash4", some 2, true, true, some "123456"⟩

/-- Store with the pending-OTP user. -/
def storeOtp : Store :=
  ⟨[otpUser], [userRoleRow], [], [], [], []⟩

/-- Characterisation of `authorizePermission`: granted exactly when the
subject resolves to a user whose role exists and whose linked code set
contains the required code.  Shared by several claim theorems. -/
lemma authorizePermission_granted_iff_mem (s : Store) (uid : Nat) (code : String) :
    authorizePermission s code uid = AuthzResult.granted ↔
      ∃ u r, findUser s uid = some u ∧ u.roleId.bind (findRole s) = some r ∧
        code ∈ rolePermissionCodes s r.id := by
  unfold authorizePermission
  cases hu : findUser s uid with
  | none => simp
  | some u =>
    cases hr : u.roleId.bind (findRole s) with
    | none => simp [hr]
    | some r =>
      by_cases hc : code ∈ rolePermissionCodes s r.id <;>
        simp [hr, hc, List.contains, List.elem_iff]

/-- C4: for every identity and required permission code, authorizePermission
returns Granted if and only if the code is a member of the permission-code
set linked to the identity's role through the role_permissions join,
compared by exact equality; in every other case it returns Denied. -/
theorem authorizePermission_granted_iff_linked_code (s : Store) (uid : Nat) (code : String) :
    (authorizePermission s code uid = AuthzResult.granted ↔
      ∃ u r, findUser s uid = some u ∧ u.roleId.bind (findRole s) = some r ∧
        code ∈ rolePermissionCodes s r.id) ∧
    (authorizePermission s code uid = AuthzResult.granted ∨
      ∃ st msg, authorizePermission s code uid = AuthzResult.denied st msg) := by
  refine ⟨authorizePermission_granted_iff_mem s uid code, ?_⟩
  cases h : authorizePermission s code uid with
  | granted => exact Or.inl rfl
  | denied st msg => exact Or.inr ⟨st, msg, rfl⟩

/-- C1 counterexample: in a store whose only user holds a role named
"Administrator" with no role_permissions rows, authorizePermission does not
return Granted — the resolver has no administrator short-circuit. -/
theorem authorizePermission_admin_no_bypass_cex :
    findUser storeAdminNoLinks 1 = some adminUser ∧
    adminUser.roleId.bind (findRole storeAdminNoLinks) = some adminRole ∧
    adminRole.roleName = "Administrator" ∧
    storeAdminNoLinks.rolePermissions = [] ∧
    authorizePermission storeAdminNoLinks "VIEW_FARMERS" 1 ≠ AuthzResult.granted := by
  refine ⟨rfl, rfl, rfl, rfl, ?_⟩
  decide

/-- C1 amended: authorizePermission applies no special case to the
Administrator role; for an identity whose role is named "Administrator" it
returns Granted exactly when the required code is linked to that role, like
any other role.  (The administrator short-circuit in the code lives in the
routes' project-scope checks on the token roleName, not in the resolver.) -/
theorem authorizePermission_administrator_granted_iff_linked (s : Store) (uid : Nat)
    (code : String) (u : User) (r : Role)
    (hu : findUser s uid = some u) (hr : u.roleId.bind (findRole s) = some r)
    (hadmin : r.roleName = "Administrator") :
    (authorizePermission s code uid = AuthzResult.granted ↔
      code ∈ rolePermissionCodes s r.id) := by
  rw [authorizePermission_granted_iff_mem]
  constructor
  · rintro ⟨u', r', hu', hr', hmem⟩
    rw [hu] at hu'
    cases hu'
    rw [hr] at hr'
    cases hr'
    exact hmem
  · intro hmem
    exact ⟨u, r, hu, hr, hmem⟩

/-- C1 amended, witness: with the link row present the Administrator role is
granted VIEW_FARMERS. -/
theorem authorizePermission_administrator_granted_iff_linked_witness :
    authorizePermission storeAdminLinked "VIEW_FARMERS" 1 = AuthzResult.granted :=
  (authorizePermission_administrator_granted_iff_linked storeAdminLinked 1 "VIEW_FARMERS"
    adminUser adminRole rfl rfl rfl).mpr (by decide)

/-- C2 counterexample: a request carrying a bearer token whose signature
does not verify is answered with status 403, not 401. -/
theorem authenticateToken_invalid_not_401_cex :
    authenticateToken "secret" 10 storeAdminNoLinks
        (some (RawToken.wellFormed tokenBadSig))
      = Except.error (403, "Invalid or expired token.") := by
  rfl

/-- C2 amended: for every request carrying a bearer token that fails codec
verification — bad signature, malformed token, or verified after its TTL
has elapsed — authenticateToken responds with status 403 and never calls
the route handler (`Except.error` means `next()` is not invoked). -/
theorem authenticateToken_codec_failure_403 (secret : String) (now : Nat) (s : Store)
    (raw : RawToken)
    (h : raw = RawToken.malformed ∨
      ∃ t, raw = RawToken.wellFormed t ∧
        (t.signedWith ≠ secret ∨ t.iat + tokenTtlSeconds ≤ now)) :
    authenticateToken secret now s (some raw)
      = Except.error (403, "Invalid or expired token.") := by
  have hv : jwtVerify secret now raw = none := by
    rcases h with h | ⟨t, ht, hbad⟩
    · rw [h]; rfl
    · subst ht
      rcases hbad with hb | hb
      · have hbeq : (t.signedWith == secret) = false := by simp [hb]
        simp [jwtVerify, hbeq]
      · have hlt : ¬ (now < t.iat + tokenTtlSeconds) := by omega
        simp [jwtVerify, hlt]
  simp [authenticateToken, hv]

/-- C2 amended, witness: a correctly signed token presented exactly at the
end of its 1-hour TTL is rejected with 403. -/
theorem authenticateToken_codec_failure_403_witness :
    authenticateToken "secret" 3600 storeAdminNoLinks
        (some (RawToken.wellFormed tokenGood))
      = Except.error (403, "Invalid or expired token.") :=
  authenticateToken_codec_failure_403 "secret" 3600 storeAdminNoLinks
    (RawToken.wellFormed tokenGood)
    (Or.inr ⟨tokenGood, rfl, Or.inr (by decide)⟩)

/-- C3: when the token verifies but the subject identity is missing, or has
isActive = false, or activationStatus = false, the gate answers 403 and the
route handler is not invoked — shown both on the gate itself and on the
composed GET /api/farmers route, which halts with the same response. -/
theorem authenticateToken_inactive_or_missing_403 (secret : String) (now : Nat)
    (s : Store) (t : Token)
    (hver : jwtVerify secret now (RawToken.wellFormed t) = some t.claims)
    (hbad : findUser s t.claims.userId = none ∨
      ∃ u, findUser s t.claims.userId = some u ∧
        (u.isActive = false ∨ u.activationStatus = false)) :
    authenticateToken secret now s (some (RawToken.wellFormed t))
      = Except.error (403, "User is inactive or not found.") ∧
    getFarmersRoute secret now s (some (RawToken.wellFormed t))
      = RouteOutcome.halted 403 "User is inactive or not found." := by
  have h1 : authenticateToken secret now s (some (RawToken.wellFormed t))
      = Except.error (403, "User is inactive or not found.") := by
    rcases hbad with h | ⟨u, hu, hflag⟩
    · simp [authenticateToken, hver, h]
    · rcases hflag with hf | hf <;> simp [authenticateToken, hver, hu, hf]
  exact ⟨h1, by simp [getFarmersRoute, h1]⟩

/-- C3 witness: a freshly issued, correctly signed token for the inactive
user 2 is rejected with 403 on GET /api/farmers. -/
theorem authenticateToken_inactive_or_missing_403_witness :
    authenticateToken "secret" 10 storeInactive
        (some (RawToken.wellFormed tokenInactive))
      = Except.error (403, "User is inactive or not found.") ∧
    getFarmersRoute "secret" 10 storeInactive
        (some (RawToken.wellFormed tokenInactive))
      = RouteOutcome.halted 403 "User is inactive or not found." :=
  authenticateToken_inactive_or_missing_403 "secret" 10 storeInactive tokenInactive
    (by decide) (Or.inr ⟨inactiveUser, rfl, Or.inl rfl⟩)

/-- C5 failing input: user 3 (role User, assigned to project 1, lacking
ADD_FARMER_RECORDS) posts a valid farmer body.  The permission middleware
denies and sends 403 — yet the handler keeps running and the farmer row is
inserted, because the middleware returns normally instead of throwing.  The
response delivered to the client is the first send, the 403. -/
theorem createFarmer_denied_still_inserts :
    authorizePermission storeDeniedAdd "ADD_FARMER_RECORDS" 3
      = AuthzResult.denied 403 "Access denied. Requires permission: ADD_FARMER_RECORDS" ∧
    (createFarmer storeDeniedAdd fieldClaims newFarmerBody 99).2.head?
      = some (403, "Access denied. Requires permission: ADD_FARMER_RECORDS") ∧
    (createFarmer storeDeniedAdd fieldClaims newFarmerBody 99).1.farmers.length
      = storeDeniedAdd.farmers.length + 1 := by
  refine ⟨?_, ?_, ?_⟩ <;> rfl

/-- C6: for a non-administrator identity (stored role name other than
'Admin', carried unchanged in the token payload), GET /api/farmers returns
200 with only rows whose projectId is among the caller's assigned projects,
and returns 200 with an empty list when that assignment set is empty. -/
theorem getFarmers_project_scoped (s : Store) (claims : Claims) (u : User) (r : Role)
    (hu : findUser s claims.userId = some u)
    (hr : u.roleId.bind (findRole s) = some r)
    (hname : claims.roleName = r.roleName)
    (hadmin : r.roleName ≠ "Admin") :
    (getFarmers s claims).1 = 200 ∧
    (∀ f ∈ (getFarmers s claims).2, f.projectId ∈ assignedProjectIds s claims.userId) ∧
    (assignedProjectIds s claims.userId = [] → (getFarmers s claims).2 = []) := by
  have hcn : (claims.roleName != "Admin") = true := by
    simp [hname]
    exact hadmin
  by_cases he : assignedProjectIds s claims.userId = []
  · simp [getFarmers, hcn, he]
  · have hne : (assignedProjectIds s claims.userId).isEmpty = false := by
      simp [List.isEmpty_iff, he]
    refine ⟨by simp [getFarmers, hcn, hne], ?_, fun h => absurd h he⟩
    intro f hf
    simp [getFarmers, hcn, hne, List.mem_filter, List.contains, List.elem_iff] at hf
    exact hf.2

/-- C6 witness: user 3 assigned to project 1 sees only the project-1 farmer
row; its projectId is in the assigned set. -/
theorem getFarmers_project_scoped_witness :
    (getFarmers storeScoped fieldClaims).1 = 200 ∧
    farmerP1.projectId ∈ assignedProjectIds storeScoped fieldClaims.userId := by
  have h := getFarmers_project_scoped storeScoped fieldClaims fieldUser userRoleRow
    rfl rfl rfl (by decide)
  exact ⟨h.1, h.2.1 farmerP1 (by decide)⟩

/-- C7: for a non-administrator update request that asks for a project
reassignment, PUT /api/farmers/:id validates membership against the
destination projectId: when the caller is not assigned to the destination
the request fails 403 with the store untouched (whatever the record's
current project); when the caller is assigned to the destination the route
proceeds and writes the destination projectId into the row. -/
theorem updateFarmer_scope_checks_destination (s : Store) (claims : Claims) (fid : Nat)
    (body : FarmerBody) (f : Farmer) (dest : Nat)
    (hf : findFarmer s fid = some f)
    (hadmin : claims.roleName ≠ "Admin")
    (hdest : body.projectId = some dest) (hdest0 : dest ≠ 0) :
    (isAssignedTo s claims.userId dest = false →
      updateFarmer s claims fid body
        = (s, [(403, "You can only edit farmers in projects you are assigned to.")])) ∧
    (isAssignedTo s claims.userId dest = true →
      (updateFarmer s claims fid body).1 = updateFarmerRow s fid body dest ∧
      (updateFarmer s claims fid body).2.getLast?
        = some (200, "Farmer record updated successfully.")) := by
  have htgt : jsOrNat body.projectId f.projectId = dest := by
    simp [jsOrNat, hdest, hdest0]
  have hcn : (claims.roleName != "Admin") = true := by simp [hadmin]
  constructor
  · intro hna
    simp [updateFarmer, hf, htgt, hcn, hna]
  · intro ha
    refine ⟨?_, ?_⟩ <;>
      simp [updateFarmer, hf, htgt, hcn, ha, List.getLast?_concat]

/-- C7 witness: user 3 is assigned to the record's current project 1 but not
to the requested destination project 2; the update is rejected 403 and the
store is unchanged. -/
theorem updateFarmer_scope_checks_destination_witness :
    updateFarmer storeScoped fieldClaims 1 reassignBody
      = (storeScoped, [(403, "You can only edit farmers in projects you are assigned to.")]) := by
  have h := updateFarmer_scope_checks_destination storeScoped fieldClaims 1 reassignBody
    farmerP1 2 rfl (by decide) rfl (by decide)
  exact h.1 (by decide)

/-- C8 counterexample: two token payloads for the same subject and store,
differing only in roleName ('Admin' vs the stored 'User'), produce different
GET /api/farmers outcomes — the scope bypass trusts roleName from the
token. -/
theorem getFarmers_trusts_claim_roleName_cex :
    adminClaims3.userId = fieldClaims.userId ∧
    adminClaims3.email = fieldClaims.email ∧
    getFarmers storeScoped adminClaims3 ≠ getFarmers storeScoped fieldClaims := by
  refine ⟨rfl, rfl, ?_⟩
  decide

/-- C8 amended: the permission resolver itself re-derives everything from
the store — it reads only the subject id from the token payload, so two
payloads with the same userId yield identical permission decisions whatever
their roleName — but the routes' project-scope administrator bypass compares
the token roleName to 'Admin', so scope outcomes can differ (see the
counterexample). -/
theorem authorizePermissionMw_ignores_roleName (s : Store) (c1 c2 : Claims) (code : String)
    (hid : c1.userId = c2.userId) :
    authorizePermissionMw s c1 code = authorizePermissionMw s c2 code := by
  simp [authorizePermissionMw, hid]

/-- C8 amended, witness: the permission decision for user 3 is the same
under the 'Admin'-labelled and 'User'-labelled payloads. -/
theorem authorizePermissionMw_ignores_roleName_witness :
    authorizePermissionMw storeScoped adminClaims3 "VIEW_FARMERS"
      = authorizePermissionMw storeScoped fieldClaims "VIEW_FARMERS" :=
  authorizePermissionMw_ignores_roleName storeScoped adminClaims3 fieldClaims
    "VIEW_FARMERS" rfl

/-- Updating the otp slot leaves a user's email unchanged. -/
lemma setOtp_email (a : User) (uid : Nat) (v : Option String) :
    (if a.id == uid then { a with otp := v } else a).email = a.email := by
  split <;> rfl

/-- Looking a user up by email commutes with an otp-slot update keyed by
id. -/
lemma find_email_setOtp (users : List User) (e : String) (uid : Nat) (v : Option String) :
    (setUserOtp users uid v).find? (fun u => u.email == e)
      = (users.find? (fun u => u.email == e)).map
          (fun u => if u.id == uid then { u with otp := v } else u) := by
  unfold setUserOtp
  rw [List.find?_map]
  have hp : ((fun u : User => u.email == e) ∘
        (fun u : User => if u.id == uid then { u with otp := v } else u))
      = (fun u : User => u.email == e) := by
    funext u
    by_cases h : u.id == uid <;> simp [Function.comp, h]
  rw [hp]

/-- C9: the pending OTP is superseded by reissuance — after a second
issuance the old code fails with "Invalid OTP." — and is single use: when
the pending code matches, verification succeeds, the slot is cleared before
the session claims are issued, and replaying the same code immediately
afterwards fails with "Invalid OTP.". -/
theorem otp_single_use_and_superseded (s : Store) (u : User) (r : Role) (e c1 c2 : String)
    (hu : findUserByEmail s e = some u)
    (hrole : u.roleId.bind (findRole s) = some r)
    (hne : c1 ≠ c2) (he : e ≠ "") (hc1 : c1 ≠ "") :
    ((verifyOtpRoute (issueOtp s u.id c2) e c1).2
      = OtpVerifyResult.badRequest "Invalid OTP.") ∧
    (u.otp = some c1 →
      (verifyOtpRoute s e c1).2 = OtpVerifyResult.verified ⟨u.id, u.email, r.roleName⟩ ∧
      findUserByEmail (verifyOtpRoute s e c1).1 e = some { u with otp := none } ∧
      (verifyOtpRoute (verifyOtpRoute s e c1).1 e c1).2
        = OtpVerifyResult.badRequest "Invalid OTP.") := by
  have he' : (e == "") = false := by simp [he]
  have hc1' : (c1 == "") = false := by simp [hc1]
  have hne' : c2 ≠ c1 := Ne.symm hne
  have hfind2 : findUserByEmail (issueOtp s u.id c2) e = some { u with otp := some c2 } := by
    have h1 : (issueOtp s u.id c2).users = setUserOtp s.users u.id (some c2) := rfl
    unfold findUserByEmail
    rw [h1, find_email_setOtp]
    unfold findUserByEmail at hu
    rw [hu]
    simp
  constructor
  · simp [verifyOtpRoute, he', hc1', hfind2, hne']
  · intro hpend
    have hv1 : verifyOtpRoute s e c1
        = ({ s with users := setUserOtp s.users u.id none },
            OtpVerifyResult.verified ⟨u.id, u.email, r.roleName⟩) := by
      simp [verifyOtpRoute, he', hc1', hu, hpend, hrole]
    have hclear : findUserByEmail (verifyOtpRoute s e c1).1 e
        = some { u with otp := none } := by
      rw [hv1]
      unfold findUserByEmail
      rw [show ({ s with users := setUserOtp s.users u.id none } : Store).users
        = setUserOtp s.users u.id none from rfl]
      rw [find_email_setOtp]
      unfold findUserByEmail at hu
      rw [hu]
      simp
    refine ⟨by rw [hv1], hclear, ?_⟩
    generalize hs2 : (verifyOtpRoute s e c1).1 = s2 at hclear
    simp [verifyOtpRoute, he', hc1', hclear]

/-- C9 witness: user 4's pending code "123456" stops verifying after a
reissuance of "654321"; verifying it without the reissuance succeeds, clears
the slot, and an immediate replay fails. -/
theorem otp_single_use_and_superseded_witness :
    (verifyOtpRoute (issueOtp storeOtp 4 "654321") "otp@fors.example" "123456").2
      = OtpVerifyResult.badRequest "Invalid OTP." ∧
    (verifyOtpRoute storeOtp "otp@fors.example" "123456").2
      = OtpVerifyResult.verified ⟨4, "otp@fors.example", "User"⟩ ∧
    (verifyOtpRoute (verifyOtpRoute storeOtp "otp@fors.example" "123456").1
        "otp@fors.example" "123456").2
      = OtpVerifyResult.badRequest "Invalid OTP." := by
  have h := otp_single_use_and_superseded storeOtp otpUser userRoleRow
    "otp@fors.example" "123456" "654321" rfl rfl (by decide) (by decide) (by decide)
  exact ⟨h.1, (h.2 rfl).1, (h.2 rfl).2.2⟩

/-- Erasing a role's link rows then keeping only that role's rows yields
nothing. -/
lemma filter_links_of_erased (l : List RolePermission) (rid : Nat) :
    (l.filter (fun rp => rp.roleId != rid)).filter (fun rp => rp.roleId == rid) = [] := by
  induction l with
  | nil => rfl
  | cons a t ih =>
    by_cases h : a.roleId == rid
    · rw [List.filter_cons_of_neg (by simp [bne, h])]
      exact ih
    · rw [List.filter_cons_of_pos (by simp [bne, h]),
        List.filter_cons_of_neg (by simp [h])]
      exact ih

/-- Freshly built link rows for a role all survive the filter on that
role. -/
lemma filter_new_links (ids : List Nat) (rid : Nat) :
    ((ids.map (fun pid => RolePermission.mk rid pid)).filter
        (fun rp => rp.roleId == rid))
      = ids.map (fun pid => RolePermission.mk rid pid) := by
  induction ids with
  | nil => rfl
  | cons a t ih => simp [List.filter_cons, ih]

/-- C10: a role update that passes validation and finds the role reports
200, deletes every existing link row of the role and inserts exactly the
supplied permission ids, so the linked set afterwards equals the supplied
list; with an empty (or omitted) permissionIds list the role is left with
zero links and every subsequent authorizePermission under that role is not
Granted. -/
theorem updateRole_replaces_permission_links (s : Store) (rid : Nat) (body : RoleBody)
    (rn : String) (r : Role)
    (hrn : body.roleName = some rn) (hrn0 : rn ≠ "")
    (hconf : s.roles.any (fun x => x.roleName == rn && x.id != rid) = false)
    (hr : findRole s rid = some r) :
    ((updateRole s rid body).2 = (200, "Role updated successfully.")) ∧
    (roleLinks (updateRole s rid body).1 rid = body.permissionIds) ∧
    (body.permissionIds = [] →
      ∀ uid code u, findUser (updateRole s rid body).1 uid = some u →
        u.roleId = some rid →
        authorizePermission (updateRole s rid body).1 code uid
          ≠ AuthzResult.granted) := by
  have htr : truthyStr (some rn) = true := by simp [truthyStr, hrn0]
  have hres : updateRole s rid body
      = ({ s with
            roles := s.roles.map
              (fun x => if x.id == rid then { x with roleName := rn } else x)
            rolePermissions :=
              (s.rolePermissions.filter (fun rp => rp.roleId != rid)) ++
                body.permissionIds.map (fun pid => RolePermission.mk rid pid) },
          (200, "Role updated successfully.")) := by
    simp [updateRole, hrn, htr, hconf, hr]
  have hfilter : (updateRole s rid body).1.rolePermissions.filter
      (fun rp => rp.roleId == rid)
      = body.permissionIds.map (fun pid => RolePermission.mk rid pid) := by
    rw [hres]
    show ((s.rolePermissions.filter (fun rp => rp.roleId != rid)) ++
        body.permissionIds.map (fun pid => RolePermission.mk rid pid)).filter
        (fun rp => rp.roleId == rid)
      = body.permissionIds.map (fun pid => RolePermission.mk rid pid)
    rw [List.filter_append, filter_links_of_erased, filter_new_links,
      List.nil_append]
  have hlinks : roleLinks (updateRole s rid body).1 rid = body.permissionIds := by
    unfold roleLinks
    rw [hfilter, List.map_map]
    have hcomp : ((fun rp : RolePermission => rp.permissionId) ∘
        (fun pid => RolePermission.mk rid pid)) = id := by
      funext pid
      rfl
    rw [hcomp, List.map_id]
  refine ⟨by rw [hres], hlinks, ?_⟩
  intro hnil uid code u hu hurole hg
  rw [authorizePermission_granted_iff_mem] at hg
  obtain ⟨u', r', hu', hr', hmem⟩ := hg
  rw [hu] at hu'
  cases hu'
  rw [hurole] at hr'
  rw [show (some rid).bind (findRole (updateRole s rid body).1)
    = findRole (updateRole s rid body).1 rid from rfl] at hr'
  have hid : r'.id = rid := by
    have h := List.find?_some hr'
    simpa using h
  have hcodes : rolePermissionCodes (updateRole s rid body).1 r'.id = [] := by
    unfold rolePermissionCodes
    rw [hid, hfilter, hnil]
    rfl
  rw [hcodes] at hmem
  exact absurd hmem (List.not_mem_nil code)

/-- C10 witness: updating the Editor role with an empty permissionIds list
succeeds, leaves it with zero links, and user 6 (who holds the role) is
denied VIEW_FARMERS afterwards. -/
theorem updateRole_replaces_permission_links_witness :
    (updateRole storeEditor 5 roleBodyEmpty).2 = (200, "Role updated successfully.") ∧
    roleLinks (updateRole storeEditor 5 roleBodyEmpty).1 5 = [] ∧
    authorizePermission (updateRole storeEditor 5 roleBodyEmpty).1 "VIEW_FARMERS" 6
      ≠ AuthzResult.granted := by
  have h := updateRole_replaces_permission_links storeEditor 5 roleBodyEmpty "Editor"
    editorRole rfl (by decide) (by decide) rfl
  exact ⟨h.1, h.2.1, h.2.2 rfl 6 "VIEW_FARMERS" editorUser rfl rfl⟩

end Fors
